import Mathlib

/-!
Verification of the barcode enrichment pipeline
(`barcode_fetcher_extended.py`, `constants.py`, `filter_unknown_products.py`).

The Python code is shallowly embedded: strings are Lean `String`s (processed
as `List Char`), Python floats arising from `float()` on matched digit groups
are modelled as `Rat` (every value produced here is an exact small rational),
dictionaries holding fixed keys become structures, and the mutable
per-service health state becomes explicit state passing.  Python string
predicates (`str.isdigit`, `\s`, `\w`) are modelled on their ASCII fragment;
the inputs manipulated by the program (barcodes, JSON payloads, product
text) are ASCII.
-/

/-! ## Character and string helpers (Python semantics, ASCII fragment) -/

/-- The apostrophe character, written via its code point. -/
def SQUOTE : Char := Char.ofNat 39

/-- The double-quote character. -/
def DQUOTE : Char := Char.ofNat 34

/-- Opening curly brace. -/
def LBRACE : Char := Char.ofNat 123

/-- Closing curly brace. -/
def RBRACE : Char := Char.ofNat 125

/-- Backslash. -/
def BSLASH : Char := Char.ofNat 92

/-- Python `\s` / `str.isspace` on ASCII: space, tab, newline, carriage
return, vertical tab, form feed. -/
def pyIsSpace (c : Char) : Bool :=
  c = ' ' || c = '\t' || c = '\n' || c = '\r' || c = '\x0b' || c = '\x0c'

/-- Python `str.isdigit` restricted to its ASCII fragment (the decimal
digits; Python additionally accepts some non-ASCII digit characters, which
never occur in this program's inputs). -/
def pyIsDigit (c : Char) : Bool := c.isDigit

/-- Python `s.isdigit()` on a whole string: every character is a digit and
the string is non-empty (`''.isdigit()` is `False`). -/
def pyIsDigitStr (cs : List Char) : Bool :=
  !cs.isEmpty && cs.all pyIsDigit

/-- Python `s.replace(old, '')` for a one-character `old`: removes every
occurrence. -/
def pyRemoveChar (old : Char) (cs : List Char) : List Char :=
  cs.filter (fun c => c ≠ old)

/-- Python `sub in s` (substring containment) on character lists. -/
def listContainsSub (sub : List Char) : List Char → Bool
  | [] => sub.isEmpty
  | c :: rest => sub.isPrefixOf (c :: rest) || listContainsSub sub rest

/-- Python `sub in s` on strings. -/
def strContainsSub (sub s : String) : Bool :=
  listContainsSub sub.toList s.toList

/-- Python `s.startswith(p)`. -/
def pyStartsWith (s p : String) : Bool :=
  p.toList.isPrefixOf s.toList

/-! ## Identifier Validator (`constants.py`, `_is_valid_barcode_format`) -/

/-- Constant `VALID_BARCODE_LENGTHS` from `constants.py`. -/
def VALID_BARCODE_LENGTHS : List Nat := [8, 12, 13, 14]

/-- Function `BarcodeProcessor._is_valid_barcode_format`: removes spaces and dashes,
then requires an all-digit string whose length is 8, 12, 13 or 14. -/
def is_valid_barcode_format (barcode : String) : Bool :=
  let b := pyRemoveChar '-' (pyRemoveChar ' ' barcode.toList)
  if !pyIsDigitStr b then false
  else if !(VALID_BARCODE_LENGTHS.contains b.length) then false
  else true

/-- Function `BarcodeProcessor._is_valid_barcode`: the variant used by
`process_excel_file`; no stripping at all. -/
def is_valid_barcode (barcode : String) : Bool :=
  if !pyIsDigitStr barcode.toList then false
  else if !(VALID_BARCODE_LENGTHS.contains barcode.toList.length) then false
  else true

/-- The validator contract exactly as the claim words it: after stripping
whitespace and dashes, the identifier is all digits of length 8, 12, 13
or 14.  Stated from the spec for comparison with the source function. -/
def claimC7_validate (s : String) : Bool :=
  let b := s.toList.filter (fun c => !(pyIsSpace c || c = '-'))
  b.all pyIsDigit && VALID_BARCODE_LENGTHS.contains b.length

/-- The amended contract: only space characters (not all whitespace) and
dashes are removed before the digit/length test. -/
def claimC7_amended_validate (s : String) : Bool :=
  let b := s.toList.filter (fun c => !(c = ' ' || c = '-'))
  b.all pyIsDigit && VALID_BARCODE_LENGTHS.contains b.length

/-! ## Data model: Product Record, ledgers, result store -/

/-- A finished Product Record (`_intelligent_format_product_data` /
`_enhance_with_ai` output, the entries of `output.json`).  Dictionary keys
with fixed presence become fields; `Quantity` (a Python float that is
always an exact small rational here) becomes `Rat`. -/
structure ProductRecord where
  barcode : String
  productName : String
  brand : String
  description : String
  category : String
  subcategory : String
  productLine : String
  quantity : Rat
  unit : String
  features : List String
  specification : List (String × String)
  productImage : String
  dataSource : String
  timestamp : String
deriving DecidableEq, Repr

namespace BarcodeProcessor

/-- Method `BarcodeProcessor.is_unknown_product` (barcode_fetcher_extended.py):
any of the six "unknown" indicators holds. -/
def is_unknown_product (p : ProductRecord) : Bool :=
  pyStartsWith p.productName "Unknown Product" ||
  p.brand == "Unknown" ||
  p.category == "Unknown" ||
  p.dataSource == "No Data Found" ||
  pyStartsWith p.description "Could not find information" ||
  p.features.contains "Information not available"

end BarcodeProcessor

namespace FilterUnknownProducts

/-- Function `is_unknown_product` (filter_unknown_products.py): the standalone copy
used by the cleaning script. -/
def is_unknown_product (p : ProductRecord) : Bool :=
  pyStartsWith p.productName "Unknown Product" ||
  p.brand == "Unknown" ||
  p.category == "Unknown" ||
  p.dataSource == "No Data Found" ||
  pyStartsWith p.description "Could not find information" ||
  p.features.contains "Information not available"

end FilterUnknownProducts

/-- An entry of `not_found_barcodes.json` (the Unresolved Ledger). -/
structure NotFoundEntry where
  barcode : String
  attempts : Nat
  firstAttempt : String
  lastAttempt : String
  reasons : List String
deriving DecidableEq, Repr

/-- An entry of `invalid_barcodes.json` (the Invalid Ledger); note it has
no attempt counter. -/
structure InvalidEntry where
  barcode : String
  dateAdded : String
  reasons : List String
deriving DecidableEq, Repr

/-- Method `BarcodeProcessor._add_to_not_found_barcodes`: update-in-place of the
first entry with the product's barcode (attempts+1, new last_attempt;
reasons untouched), else append a fresh entry. -/
def add_to_not_found_barcodes (p : ProductRecord) :
    List NotFoundEntry → List NotFoundEntry
  | [] => [⟨p.barcode, 1, p.timestamp, p.timestamp, ["No product data found"]⟩]
  | e :: rest =>
      if e.barcode = p.barcode then
        { e with attempts := e.attempts + 1, lastAttempt := p.timestamp } :: rest
      else
        e :: add_to_not_found_barcodes p rest

/-- Method `BarcodeProcessor._save_not_found_barcode barcode reasons`: update the
first entry with this barcode (attempts+1, new last_attempt, reasons
REPLACED by the newly supplied list, with `reasons or ["Unknown reason"]`
defaulting), else append a fresh entry.  `now` stands for
`datetime.now().isoformat()`. -/
def save_not_found_barcode (barcode : String) (reasons : List String)
    (now : String) : List NotFoundEntry → List NotFoundEntry
  | [] => [⟨barcode, 1, now, now,
            if reasons.isEmpty then ["Unknown reason"] else reasons⟩]
  | e :: rest =>
      if e.barcode = barcode then
        { e with attempts := e.attempts + 1, lastAttempt := now,
                 reasons := if reasons.isEmpty then ["Unknown reason"] else reasons } :: rest
      else
        e :: save_not_found_barcode barcode reasons now rest

/-- Method `BarcodeProcessor._add_invalid_barcode barcode reasons`, as observed on
the persisted `invalid_barcodes.json` file: when the barcode already has
an entry, the function unions the reasons into a local copy of the loaded
list but `return`s before the file write, so the persisted ledger is
unchanged; when it is absent, a fresh entry (with `reasons or
["Unknown reason"]`) is appended and the file is written. -/
def add_invalid_barcode (barcode : String) (reasons : List String)
    (now : String) (file : List InvalidEntry) : List InvalidEntry :=
  if file.any (fun e => e.barcode = barcode) then file
  else file ++ [⟨barcode, now,
                 if reasons.isEmpty then ["Unknown reason"] else reasons⟩]

/-- The two persisted collections touched by `_save_product_data`: the
primary collection (`self.all_products` / `output.json`) and the
Unresolved Ledger (`not_found_barcodes.json`). -/
structure ResultStore where
  allProducts : List ProductRecord
  notFound : List NotFoundEntry
deriving Repr

/-- The replace-or-append step of `_save_product_data` (single-file mode):
the first entry with the same barcode is replaced in place, otherwise the
record is appended. -/
def upsertProduct (p : ProductRecord) : List ProductRecord → List ProductRecord
  | [] => [p]
  | q :: rest =>
      if q.barcode = p.barcode then p :: rest
      else q :: upsertProduct p rest

/-- Method `BarcodeProcessor._save_product_data` (single-file mode): an unknown
product is routed to the Unresolved Ledger only; otherwise the record is
upserted into the primary collection. -/
def save_product_data (p : ProductRecord) (store : ResultStore) : ResultStore :=
  if BarcodeProcessor.is_unknown_product p then
    { store with notFound := add_to_not_found_barcodes p store.notFound }
  else
    { store with allProducts := upsertProduct p store.allProducts }

/-- Number of records in a collection carrying a given barcode. -/
def countBarcode (b : String) (l : List ProductRecord) : Nat :=
  (l.filter (fun q => q.barcode = b)).length

/-- First Unresolved Ledger entry for a given barcode, if any. -/
def findEntryNF (b : String) : List NotFoundEntry → Option NotFoundEntry
  | [] => none
  | e :: rest => if e.barcode = b then some e else findEntryNF b rest

/-- A concrete record matching the unknown-product predicate (its brand is
the "Unknown" sentinel). -/
def sampleUnknownRecord : ProductRecord :=
  ⟨"8901030875071", "Exo Round", "Unknown", "", "Household", "Dishwashing",
   "Unknown Dishwashing Products", 0, "", ["Effective cleaning"],
   [("Brand", "Unknown Brand")], "", "Intelligent Processing - Google Search", "t0"⟩

/-- A concrete record not matching the unknown-product predicate. -/
def sampleKnownRecord : ProductRecord :=
  ⟨"8901030875071", "Exo Round Anti-Bacterial Dishwash Bar", "Exo",
   "Exo dishwashing bar", "Household", "Dishwashing", "Exo Dishwashing Products",
   500, "g", ["Effective cleaning", "Easy to use"],
   [("Brand", "Exo"), ("Country of Origin", "India")], "", "AI Enhanced", "t1"⟩

/-- An earlier version of `sampleKnownRecord` already sitting in the
primary collection under the same barcode. -/
def sampleStaleRecord : ProductRecord :=
  ⟨"8901030875071", "Exo Round", "Exo", "", "Household", "Dishwashing",
   "Exo Dishwashing Products", 0, "", ["Quality product"],
   [("Brand", "Exo")], "", "Intelligent Processing - Google Search", "t0"⟩

/-- A concrete Unresolved Ledger with one prior attempt for a barcode. -/
def sampleNotFoundLedger : List NotFoundEntry :=
  [⟨"12345678", 1, "t0", "t0", ["Not found in OpenFoodFacts"]⟩]

/-! ## Generative Structuring Client health tracking
(`_enhance_with_ai`, `_call_gemini_api`, `_call_openai_api`,
`_call_deepseek_api`, `AI_SERVICE_DEFAULT_STATUS`) -/

/-- One adapter's entry of `self.ai_service_status`. -/
structure ServiceState where
  working : Bool
  failures : Nat
deriving DecidableEq, Repr

/-- Constant `AI_SERVICE_DEFAULT_STATUS` from `constants.py` (the `error_reason` /
`last_reset` bookkeeping fields are never read and are omitted). -/
structure AIServiceStatus where
  gemini : ServiceState
  openai : ServiceState
  deepseek : ServiceState
deriving DecidableEq, Repr

/-- The initial health state: all three adapters working, zero failures. -/
def AI_SERVICE_DEFAULT_STATUS : AIServiceStatus :=
  ⟨⟨true, 0⟩, ⟨true, 0⟩, ⟨true, 0⟩⟩

/-- What the Gemini HTTP layer would answer if a request were issued:
a 200 response in the expected shape, a 200 response in an unexpected
shape, a non-200 status, or a transport failure/raised exception. -/
inductive GeminiOutcome
  | ok (text : String)
  | badFormat
  | httpError (status : Nat)
  | requestFailure
deriving DecidableEq, Repr

/-- What the OpenAI HTTP layer would answer: 200 in the expected shape,
a 200 whose body lacks the `choices[0].message.content` path, 429 with
`insufficient_quota`, 429 otherwise, 401, another non-200 status, or a
transport failure/raised exception. -/
inductive OpenAIOutcome
  | ok (text : String)
  | badFormat
  | rateLimitQuota
  | rateLimitOther
  | authFailure
  | httpError (status : Nat)
  | requestFailure
deriving DecidableEq, Repr

/-- What the DeepSeek HTTP layer would answer: 200 in the expected
shape, a 200 whose body lacks the `choices[0].message.content` path, 402
(insufficient balance), 401, 429, another non-200 status, or a
transport failure/raised exception. -/
inductive DeepSeekOutcome
  | ok (text : String)
  | badFormat
  | insufficientBalance
  | authFailure
  | rateLimit
  | httpError (status : Nat)
  | requestFailure
deriving DecidableEq, Repr

/-- Result of one adapter call: the returned text (if any), whether an
HTTP request was actually issued, and the adapter's new health state. -/
structure CallResult where
  response : Option String
  requested : Bool
  state : ServiceState
deriving DecidableEq, Repr

/-- Method `BarcodeProcessor._call_gemini_api`: skip without a request when not
working; a 200 response resets failures to 0 (and, when the shape is
unexpected, then increments them to 1); every other failure increments
the failure count.  Gemini has no fast-disable branch. -/
def call_gemini_api (s : ServiceState) (o : GeminiOutcome) : CallResult :=
  if !s.working then ⟨none, false, s⟩
  else
    match o with
    | .ok t => ⟨some t, true, ⟨s.working, 0⟩⟩
    | .badFormat => ⟨none, true, ⟨s.working, 1⟩⟩
    | .httpError _ => ⟨none, true, ⟨s.working, s.failures + 1⟩⟩
    | .requestFailure => ⟨none, true, ⟨s.working, s.failures + 1⟩⟩

/-- Method `BarcodeProcessor._call_openai_api`: a 200 resets failures to 0
before the body is read, so a 200 of unexpected shape (the
`choices[0].message.content` access raises and the exception handler
increments) nets failures = 1; a 429 with `insufficient_quota` disables
and increments; other 429s increment; 401 disables without
incrementing; other errors increment. -/
def call_openai_api (s : ServiceState) (o : OpenAIOutcome) : CallResult :=
  if !s.working then ⟨none, false, s⟩
  else
    match o with
    | .ok t => ⟨some t, true, ⟨s.working, 0⟩⟩
    | .badFormat => ⟨none, true, ⟨s.working, 1⟩⟩
    | .rateLimitQuota => ⟨none, true, ⟨false, s.failures + 1⟩⟩
    | .rateLimitOther => ⟨none, true, ⟨s.working, s.failures + 1⟩⟩
    | .authFailure => ⟨none, true, ⟨false, s.failures⟩⟩
    | .httpError _ => ⟨none, true, ⟨s.working, s.failures + 1⟩⟩
    | .requestFailure => ⟨none, true, ⟨s.working, s.failures + 1⟩⟩

/-- Method `BarcodeProcessor._call_deepseek_api`: a 200 resets failures to 0
before the body is read, so a 200 of unexpected shape nets failures = 1
via the exception handler (same reset-then-increment as OpenAI); 402 and
401 disable without incrementing; 429 and other errors increment. -/
def call_deepseek_api (s : ServiceState) (o : DeepSeekOutcome) : CallResult :=
  if !s.working then ⟨none, false, s⟩
  else
    match o with
    | .ok t => ⟨some t, true, ⟨s.working, 0⟩⟩
    | .badFormat => ⟨none, true, ⟨s.working, 1⟩⟩
    | .insufficientBalance => ⟨none, true, ⟨false, s.failures⟩⟩
    | .authFailure => ⟨none, true, ⟨false, s.failures⟩⟩
    | .rateLimit => ⟨none, true, ⟨s.working, s.failures + 1⟩⟩
    | .httpError _ => ⟨none, true, ⟨s.working, s.failures + 1⟩⟩
    | .requestFailure => ⟨none, true, ⟨s.working, s.failures + 1⟩⟩

/-- The HTTP-layer answers the three adapters would receive during one
`_enhance_with_ai` pass, were they called. -/
structure PassOutcomes where
  gemini : GeminiOutcome
  openai : OpenAIOutcome
  deepseek : DeepSeekOutcome
deriving DecidableEq, Repr

/-- Health-relevant effect of one `_enhance_with_ai` pass: the new status
plus which adapters actually issued a request. -/
structure EnhanceResult where
  status : AIServiceStatus
  geminiRequested : Bool
  openaiRequested : Bool
  deepseekRequested : Bool
deriving DecidableEq, Repr

/-- The caller-side disable check repeated after each adapter call in
`_enhance_with_ai`: `if not response and failures >= 3: working = False`. -/
def disableCheck (r : CallResult) : ServiceState :=
  if r.response.isNone && decide (3 ≤ r.state.failures) then
    ⟨false, r.state.failures⟩
  else r.state

/-- The Gemini block of `_enhance_with_ai`: call when working, then run
the disable check.  Returns (response so far, request issued, new
state). -/
def geminiBlock (s : ServiceState) (o : GeminiOutcome) :
    Option String × Bool × ServiceState :=
  if s.working then
    let r := call_gemini_api s o
    (r.response, r.requested, disableCheck r)
  else (none, false, s)

/-- The OpenAI block of `_enhance_with_ai`: call only when no response
yet and the adapter is working, then run the disable check. -/
def openaiBlock (resp : Option String) (s : ServiceState) (o : OpenAIOutcome) :
    Option String × Bool × ServiceState :=
  if resp.isNone && s.working then
    let r := call_openai_api s o
    (r.response, r.requested, disableCheck r)
  else (resp, false, s)

/-- The DeepSeek block of `_enhance_with_ai`: call only when no response
yet and the adapter is working, then run the disable check. -/
def deepseekBlock (resp : Option String) (s : ServiceState) (o : DeepSeekOutcome) :
    Option String × Bool × ServiceState :=
  if resp.isNone && s.working then
    let r := call_deepseek_api s o
    (r.response, r.requested, disableCheck r)
  else (resp, false, s)

/-- Method `BarcodeProcessor._enhance_with_ai`, restricted to its health-state
effects: if all three adapters are disabled, skip straight to local
processing; otherwise try Gemini, then (if no response yet) OpenAI, then
(if still no response) DeepSeek, each guarded by its `working` flag and
followed by the disable check.  (The response-parsing tail and the
rate-limit sleep loop have no health-state effect.) -/
def enhance_with_ai (st : AIServiceStatus) (o : PassOutcomes) : EnhanceResult :=
  if !st.gemini.working && !st.openai.working && !st.deepseek.working then
    ⟨st, false, false, false⟩
  else
    let g := geminiBlock st.gemini o.gemini
    let ob := openaiBlock g.1 st.openai o.openai
    let d := deepseekBlock ob.1 st.deepseek o.deepseek
    ⟨⟨g.2.2, ob.2.2, d.2.2⟩, g.2.1, ob.2.1, d.2.1⟩

/-- One pipeline pass over one identifier, as it affects the health
state: `_enhance_with_ai` runs only when a source client produced a named
candidate; otherwise the health state is untouched. -/
inductive PipelinePass
  | noEnhance
  | enhance (o : PassOutcomes)
deriving Repr

/-- Health-state effect of one pipeline pass. -/
def runPass (st : AIServiceStatus) : PipelinePass → AIServiceStatus
  | .noEnhance => st
  | .enhance o => (enhance_with_ai st o).status

/-- Health-state effect of a sequence of pipeline passes (the process
lifetime). -/
def runPasses (st : AIServiceStatus) (ps : List PipelinePass) : AIServiceStatus :=
  ps.foldl runPass st

/-- The circuit-breaker invariant for one adapter: a failure count of 3
or more only occurs with the working flag already cleared. -/
def serviceInv (s : ServiceState) : Prop :=
  3 ≤ s.failures → s.working = false

instance (s : ServiceState) : Decidable (serviceInv s) := by
  unfold serviceInv; infer_instance

/-- The circuit-breaker invariant for the whole health state. -/
def healthInv (st : AIServiceStatus) : Prop :=
  serviceInv st.gemini ∧ serviceInv st.openai ∧ serviceInv st.deepseek

instance (st : AIServiceStatus) : Decidable (healthInv st) := by
  unfold healthInv; infer_instance

/-! ## Source Clients cascade (`process_single_barcode`) -/

/-- A `RawCandidate`: the sparse dictionary a source client returns
(`_search_openfoodfacts` / `_search_google` / `_search_digiteyes`).
Absent optional fields are empty strings / `none`. -/
structure RawProductData where
  name : String
  brand : String
  description : String
  image_url : String
  source : String
  quantity_value : Option Rat
  quantity_unit : Option String
deriving DecidableEq, Repr

/-- The three source clients, in the order `process_single_barcode`
consults them. -/
inductive SourceClient
  | openfoodfacts
  | google
  | digiteyes
deriving DecidableEq, Repr

/-- Python's `product_data and product_data.get('name')` truthiness: a
candidate counts as found when it exists and its name is non-empty. -/
def hasName : Option RawProductData → Bool
  | none => false
  | some d => d.name ≠ ""

/-- The source-client cascade of `process_single_barcode`, with the three
clients abstracted as the candidate each would return for the barcode.
Returns the list of clients queried, in call order, and the candidate the
pipeline continues with. -/
def process_single_barcode_sources (off goog digi : Option RawProductData) :
    List SourceClient × Option RawProductData :=
  let calls := [SourceClient.openfoodfacts]
  let product_data := off
  let (calls, product_data) :=
    if !hasName product_data then (calls ++ [SourceClient.google], goog)
    else (calls, product_data)
  let (calls, product_data) :=
    if !hasName product_data then (calls ++ [SourceClient.digiteyes], digi)
    else (calls, product_data)
  (calls, product_data)

/-! ## Local Heuristic Formatter: quantity/unit extraction
(`_intelligent_format_product_data` lines 1212-1266, `QUANTITY_PATTERNS`)

The six regexes of `QUANTITY_PATTERNS` and the two fallback scans share
the shape `\d+(\.\d+)? \s* <alternation> [boundary]`.  They are embedded
as deterministic matchers on character lists: the alternation is tried
branch by branch in the regex's order with the boundary as continuation
(exactly the backtracking order of `re.search`), and greedy `\d+` /
`\s*` matching is exact because no branch can start with a digit, a dot
or whitespace. -/

/-- Python `\w` on ASCII. -/
def pyIsWordChar (c : Char) : Bool := c.isAlphanum || c = '_'

/-- Match `\d+(?:\.\d+)?` at the head of the input, returning the matched
group and the rest. -/
def matchNumber (cs : List Char) : Option (List Char × List Char) :=
  match cs.span Char.isDigit with
  | (ds, rest) =>
      if ds.isEmpty then none
      else
        match rest with
        | '.' :: rest2 =>
            match rest2.span Char.isDigit with
            | (fs, rest3) =>
                if fs.isEmpty then some (ds, rest)
                else some (ds ++ '.' :: fs, rest3)
        | _ => some (ds, rest)

/-- Boundary `(?:\b|$)` directly after a word character: end of input or a
non-word character next. -/
def boundaryOrEnd : List Char → Bool
  | [] => true
  | c :: _ => !pyIsWordChar c

/-- Try alternation branches in order; a branch succeeds when it is a
literal prefix of the input and the continuation accepts the rest. -/
def matchAltWith (k : List Char → Bool) :
    List (List Char) → List Char → Option (List Char × List Char)
  | [], _ => none
  | alt :: alts, cs =>
      if alt.isPrefixOf cs && k (cs.drop alt.length) then
        some (alt, cs.drop alt.length)
      else matchAltWith k alts cs

/-- Search as `re.search`: try the pattern at every position, leftmost first. -/
def searchAt {α : Type} (m : List Char → Option α) : List Char → Option α
  | [] => m []
  | c :: rest =>
      match m (c :: rest) with
      | some r => some r
      | none => searchAt m rest

/-- One-group matcher `(\d+(?:\.\d+)?)\s*(?:alt1|...)(?:\b|$)` at a
position: returns the number group. -/
def matchUnitPattern (alts : List (List Char)) (cs : List Char) :
    Option (List Char) :=
  (matchNumber cs).bind fun p =>
    (matchAltWith boundaryOrEnd alts (p.2.dropWhile pyIsSpace)).map fun _ => p.1

/-- Three-group matcher for `(\d+)\s*x\s*(\d+(?:\.\d+)?)\s*(g|ml|gm|l)`
(the compound `N x M<unit>` pattern, which has no trailing boundary). -/
def matchXPattern (cs : List Char) : Option (List Char × List Char × List Char) :=
  match cs.span Char.isDigit with
  | (ds, rest) =>
      if ds.isEmpty then none
      else
        match rest.dropWhile pyIsSpace with
        | 'x' :: rest2 =>
            (matchNumber (rest2.dropWhile pyIsSpace)).bind fun p =>
              (matchAltWith (fun _ => true)
                  [['g'], ['m', 'l'], ['g', 'm'], ['l']]
                  (p.2.dropWhile pyIsSpace)).map fun u => (ds, p.1, u.1)
        | _ => none

/-- A match of one entry of `QUANTITY_PATTERNS`: one captured group for
the five unit patterns, three for the `N x M<unit>` pattern. -/
inductive QMatch
  | one (g1 : List Char)
  | three (g1 g2 g3 : List Char)
deriving DecidableEq, Repr

/-- The regex source text of the first five `QUANTITY_PATTERNS` entries
from `constants.py` (`g`, `ml`, `kg`, `l`, `pc` families).  The unit
detection step of the extraction loop tests character/substring
containment on this pattern text itself. -/
def QP_STR_G : String := "(\\d+(?:\\.\\d+)?)\\s*(?:g|gm|gram|grams|grm)(?:\\b|$)"

/-- Pattern text of the `ml` entry. -/
def QP_STR_ML : String := "(\\d+(?:\\.\\d+)?)\\s*(?:ml|milli?li[dt]er)(?:\\b|$)"

/-- Pattern text of the `kg` entry. -/
def QP_STR_KG : String := "(\\d+(?:\\.\\d+)?)\\s*(?:kg|kilo|kilogram)(?:\\b|$)"

/-- Pattern text of the `l` entry. -/
def QP_STR_L : String := "(\\d+(?:\\.\\d+)?)\\s*(?:l|ltr|lit|liter|litre)(?:\\b|$)"

/-- Pattern text of the `pc` entry. -/
def QP_STR_PC : String := "(\\d+(?:\\.\\d+)?)\\s*(?:pc|pcs|piece|pieces|pack)(?:\\b|$)"

/-- Pattern text of the compound `N x M<unit>` entry. -/
def QP_STR_X : String := "(\\d+)\\s*x\\s*(\\d+(?:\\.\\d+)?)\\s*(g|ml|gm|l)"

/-- Alternation branches of the `g` pattern, in regex order. -/
def ALTS_G : List (List Char) :=
  [['g'], ['g', 'm'], ['g', 'r', 'a', 'm'], ['g', 'r', 'a', 'm', 's'], ['g', 'r', 'm']]

/-- Alternation branches of the `ml` pattern: `ml` first, then the four
expansions of `milli?li[dt]er` in backtracking order (`i?` greedy,
`[dt]` in character-class order). -/
def ALTS_ML : List (List Char) :=
  [['m', 'l'],
   ['m', 'i', 'l', 'l', 'i', 'l', 'i', 'd', 'e', 'r'],
   ['m', 'i', 'l', 'l', 'i', 'l', 'i', 't', 'e', 'r'],
   ['m', 'i', 'l', 'l', 'l', 'i', 'd', 'e', 'r'],
   ['m', 'i', 'l', 'l', 'l', 'i', 't', 'e', 'r']]

/-- Alternation branches of the `kg` pattern. -/
def ALTS_KG : List (List Char) :=
  [['k', 'g'], ['k', 'i', 'l', 'o'], ['k', 'i', 'l', 'o', 'g', 'r', 'a', 'm']]

/-- Alternation branches of the `l` pattern. -/
def ALTS_L : List (List Char) :=
  [['l'], ['l', 't', 'r'], ['l', 'i', 't'], ['l', 'i', 't', 'e', 'r'],
   ['l', 'i', 't', 'r', 'e']]

/-- Alternation branches of the `pc` pattern. -/
def ALTS_PC : List (List Char) :=
  [['p', 'c'], ['p', 'c', 's'], ['p', 'i', 'e', 'c', 'e'],
   ['p', 'i', 'e', 'c', 'e', 's'], ['p', 'a', 'c', 'k']]

/-- Constant `QUANTITY_PATTERNS`, each entry as its regex source text paired with
its embedded matcher, in the order of `constants.py`. -/
def QUANTITY_PATTERNS : List (String × (List Char → Option QMatch)) :=
  [(QP_STR_G, fun cs => (matchUnitPattern ALTS_G cs).map QMatch.one),
   (QP_STR_ML, fun cs => (matchUnitPattern ALTS_ML cs).map QMatch.one),
   (QP_STR_KG, fun cs => (matchUnitPattern ALTS_KG cs).map QMatch.one),
   (QP_STR_L, fun cs => (matchUnitPattern ALTS_L cs).map QMatch.one),
   (QP_STR_PC, fun cs => (matchUnitPattern ALTS_PC cs).map QMatch.one),
   (QP_STR_X, fun cs => (matchXPattern cs).map fun t => QMatch.three t.1 t.2.1 t.2.2)]

/-- Numeric value of a digit list. -/
def digitsToNat (cs : List Char) : Nat :=
  cs.foldl (fun n c => n * 10 + (c.toNat - 48)) 0

/-- Python `float()` on a matched group (digits, optionally a dot and
more digits), as an exact rational. -/
def pyFloatOfGroup (cs : List Char) : Rat :=
  match cs.span (fun c => c ≠ '.') with
  | (ip, []) => digitsToNat ip
  | (ip, _ :: fp) => digitsToNat ip + (digitsToNat fp : Rat) / ((10 : Rat) ^ fp.length)

/-- The unit-detection chain of the one-group branch: `if 'g' in
pattern ... elif 'ml' in pattern ...`, falling through to the previous
unit value (initially `""`). -/
def unitFromPatternStr (pat : String) (prev : String) : String :=
  if strContainsSub "g" pat then "g"
  else if strContainsSub "ml" pat then "ml"
  else if strContainsSub "kg" pat then "kg"
  else if strContainsSub "l" pat then "l"
  else if strContainsSub "pc" pat || strContainsSub "piece" pat then "pc"
  else prev

/-- The `for pattern in QUANTITY_PATTERNS` loop: first pattern with a
match wins; one-group matches read their unit off the pattern text,
three-group matches multiply the two numbers and take the third group as
unit. -/
def extractQuantityLoop :
    List (String × (List Char → Option QMatch)) → List Char → Rat × String
  | [], _ => (0, "")
  | (pat, m) :: rest, text =>
      match searchAt m text with
      | some (QMatch.one g1) => (pyFloatOfGroup g1, unitFromPatternStr pat "")
      | some (QMatch.three g1 g2 g3) =>
          (pyFloatOfGroup g1 * pyFloatOfGroup g2, String.mk g3)
      | none => extractQuantityLoop rest text

/-- First match of the fallback scan
`re.findall(r'(\d+)\s*(?:g|gm|gram|ml|l|kg)', full_text)` (the code only
uses the first match). -/
def fallbackWeightMatcher (cs : List Char) : Option (List Char) :=
  match cs.span Char.isDigit with
  | (ds, rest) =>
      if ds.isEmpty then none
      else
        (matchAltWith (fun _ => true)
            [['g'], ['g', 'm'], ['g', 'r', 'a', 'm'], ['m', 'l'], ['l'], ['k', 'g']]
            (rest.dropWhile pyIsSpace)).map fun _ => ds

/-- Python `f"{q}"` for a float that is an exact integer: the digits
followed by `.0` (the only case the fallback produces, since its group
is `\d+`). -/
def pyFloatStr (q : Rat) : String :=
  if q.den = 1 then toString q.num ++ ".0" else toString q

/-- The fallback's unit-detection by substring containment of
`f"{quantity} g"` / `f"{quantity}g"` (and ml/kg/l) in the analysis text;
falls through to the previous unit.  Because `quantity` is a float, the
probe strings carry a `.0` suffix and in practice never match. -/
def fallbackUnitCheck (q : Rat) (text : List Char) (prev : String) : String :=
  let qs := pyFloatStr q
  if listContainsSub (qs ++ " g").toList text || listContainsSub (qs ++ "g").toList text then "g"
  else if listContainsSub (qs ++ " ml").toList text || listContainsSub (qs ++ "ml").toList text then "ml"
  else if listContainsSub (qs ++ " kg").toList text || listContainsSub (qs ++ "kg").toList text then "kg"
  else if listContainsSub (qs ++ " l").toList text || listContainsSub (qs ++ "l").toList text then "l"
  else prev

/-- The last-resort scan `re.search(r'(\d+)\s*Gm\b', full_text,
re.IGNORECASE)`. -/
def gmFallbackMatcher (cs : List Char) : Option (List Char) :=
  match cs.span Char.isDigit with
  | (ds, rest) =>
      if ds.isEmpty then none
      else
        match rest.dropWhile pyIsSpace with
        | c1 :: c2 :: rest2 =>
            if c1.toLower = 'g' && c2.toLower = 'm' && boundaryOrEnd rest2 then
              some ds
            else none
        | _ => none

/-- The quantity/unit extraction step of
`_intelligent_format_product_data`: the `QUANTITY_PATTERNS` loop, then
(when quantity is still 0) the general weight scan, then (when both
quantity and unit are still empty) the `<digits> Gm` scan. -/
def extract_quantity_unit (full_text : List Char) : Rat × String :=
  let qu := extractQuantityLoop QUANTITY_PATTERNS full_text
  let qu :=
    if qu.1 = 0 then
      match searchAt fallbackWeightMatcher full_text with
      | some ds =>
          (pyFloatOfGroup ds, fallbackUnitCheck (pyFloatOfGroup ds) full_text qu.2)
      | none => qu
    else qu
  if qu.1 = 0 ∧ qu.2 = "" then
    match searchAt gmFallbackMatcher full_text with
    | some ds => (pyFloatOfGroup ds, "g")
    | none => qu
  else qu

/-- The analysis text `full_text` of
`_intelligent_format_product_data`: `f"{name} {description}
{search_text}".lower()`. -/
def fullAnalysisText (name description searchText : String) : List Char :=
  ((name ++ " " ++ description ++ " " ++ searchText).toList).map Char.toLower

/-! ## Response Structuring Engine (`clean_and_parse_json`)

`json.loads` is embedded as a fuel-indexed recursive-descent parser for
the JSON grammar (strings with the common escapes, numbers without
exponents, booleans, null, arrays, objects — the fragments this
program's payloads use; `\uXXXX` escapes and exponent notation never
occur in them).  The regex constants the repair steps use
(`JSON_CODEBLOCK_PATTERN`, `JSON_UNQUOTED_PROPERTY_PATTERN`,
`JSON_TRAILING_COMMA_PATTERN`, `JSON_MISSING_COMMA_PATTERN`,
`JSON_UNQUOTED_VALUE_PATTERN`) are imported by the source from
`constants.py` but are missing from it, so each repair step is modelled
from the spec: quote bare property names after `{` or `,`; strip a comma
standing before `}` or `]`; insert a comma between two elements
separated by a newline; normalize single quotes to double quotes (this
one is in the source: `fixed_text.replace`); quote a bare scalar value
between `:` and a closing delimiter. -/

/-- Backtick, written via its code point. -/
def BTICK : Char := Char.ofNat 96

/-- A parsed JSON value. -/
inductive JsonValue
  | str (s : String)
  | num (q : Rat)
  | jbool (b : Bool)
  | null
  | arr (elems : List JsonValue)
  | obj (members : List (String × JsonValue))

/-- JSON insignificant whitespace. -/
def jsonSkipWs (cs : List Char) : List Char :=
  cs.dropWhile (fun c => c = ' ' || c = '\t' || c = '\n' || c = '\r')

/-- The common JSON string escapes. -/
def escChar (e : Char) : Option Char :=
  if e = DQUOTE then some DQUOTE
  else if e = BSLASH then some BSLASH
  else if e = '/' then some '/'
  else if e = 'n' then some '\n'
  else if e = 't' then some '\t'
  else if e = 'r' then some '\r'
  else if e = 'b' then some (Char.ofNat 8)
  else if e = 'f' then some (Char.ofNat 12)
  else none

/-- Parse the body of a JSON string after the opening quote, up to and
including the closing quote. -/
def parseStringBody : List Char → Option (List Char × List Char)
  | [] => none
  | c :: rest =>
      if c = DQUOTE then some ([], rest)
      else if c = BSLASH then
        match rest with
        | [] => none
        | e :: rest2 =>
            match escChar e with
            | some ch => (parseStringBody rest2).map fun p => (ch :: p.1, p.2)
            | none => none
      else (parseStringBody rest).map fun p => (c :: p.1, p.2)

/-- Parse an unsigned JSON number (no exponent). -/
def parseJsonNumberCore (cs : List Char) : Option (Rat × List Char) :=
  match cs.span Char.isDigit with
  | (ds, rest) =>
      if ds.isEmpty then none
      else if 1 < ds.length ∧ ds.head? = some '0' then none
      else
        match rest with
        | '.' :: rest2 =>
            match rest2.span Char.isDigit with
            | (fs, rest3) =>
                if fs.isEmpty then none
                else some ((digitsToNat ds : Rat) +
                  (digitsToNat fs : Rat) / ((10 : Rat) ^ fs.length), rest3)
        | _ => some ((digitsToNat ds : Rat), rest)

/-- Parse a JSON number, with optional sign. -/
def parseJsonNumber (cs : List Char) : Option (Rat × List Char) :=
  match cs with
  | '-' :: t => (parseJsonNumberCore t).map fun p => (-p.1, p.2)
  | _ => parseJsonNumberCore cs

/-- Parsing mode: a value, the members of an object (accumulated), or
the elements of an array (accumulated). -/
inductive JMode
  | value
  | members (acc : List (String × JsonValue))
  | elems (acc : List JsonValue)

/-- Parsing result matching the mode. -/
inductive JRes
  | val (v : JsonValue)
  | mems (l : List (String × JsonValue))
  | els (l : List JsonValue)

/-- The recursive-descent JSON parser, structural on its fuel. -/
def parseJ : Nat → JMode → List Char → Option (JRes × List Char)
  | 0, _, _ => none
  | Nat.succ fuel, JMode.value, cs0 =>
      let cs := jsonSkipWs cs0
      match cs with
      | [] => none
      | c :: rest =>
          if c = DQUOTE then
            (parseStringBody rest).map fun p =>
              (JRes.val (JsonValue.str (String.mk p.1)), p.2)
          else if c = LBRACE then
            match jsonSkipWs rest with
            | r :: rest2 =>
                if r = RBRACE then some (JRes.val (JsonValue.obj []), rest2)
                else
                  match parseJ fuel (JMode.members []) rest with
                  | some (JRes.mems l, restM) => some (JRes.val (JsonValue.obj l), restM)
                  | _ => none
            | [] => none
          else if c = '[' then
            match jsonSkipWs rest with
            | r :: rest2 =>
                if r = ']' then some (JRes.val (JsonValue.arr []), rest2)
                else
                  match parseJ fuel (JMode.elems []) rest with
                  | some (JRes.els l, restE) => some (JRes.val (JsonValue.arr l), restE)
                  | _ => none
            | [] => none
          else if ['t', 'r', 'u', 'e'].isPrefixOf cs then
            some (JRes.val (JsonValue.jbool true), cs.drop 4)
          else if ['f', 'a', 'l', 's', 'e'].isPrefixOf cs then
            some (JRes.val (JsonValue.jbool false), cs.drop 5)
          else if ['n', 'u', 'l', 'l'].isPrefixOf cs then
            some (JRes.val JsonValue.null, cs.drop 4)
          else
            (parseJsonNumber cs).map fun p => (JRes.val (JsonValue.num p.1), p.2)
  | Nat.succ fuel, JMode.members acc, cs0 =>
      match jsonSkipWs cs0 with
      | c :: rest =>
          if c = DQUOTE then
            match parseStringBody rest with
            | some (key, rest1) =>
                match jsonSkipWs rest1 with
                | ':' :: rest2 =>
                    match parseJ fuel JMode.value rest2 with
                    | some (JRes.val v, rest3) =>
                        let acc2 := acc ++ [(String.mk key, v)]
                        match jsonSkipWs rest3 with
                        | ',' :: rest4 => parseJ fuel (JMode.members acc2) rest4
                        | d :: rest4 =>
                            if d = RBRACE then some (JRes.mems acc2, rest4) else none
                        | [] => none
                    | _ => none
                | _ => none
            | none => none
          else none
      | [] => none
  | Nat.succ fuel, JMode.elems acc, cs0 =>
      match parseJ fuel JMode.value cs0 with
      | some (JRes.val v, rest) =>
          let acc2 := acc ++ [v]
          match jsonSkipWs rest with
          | ',' :: rest1 => parseJ fuel (JMode.elems acc2) rest1
          | ']' :: rest1 => some (JRes.els acc2, rest1)
          | _ => none
      | _ => none

/-- Function `json.loads` on a character list: parse one value and require only
whitespace after it. -/
def json_loads_list (cs : List Char) : Option JsonValue :=
  match parseJ (2 * cs.length + 2) JMode.value cs with
  | some (JRes.val v, rest) => if (jsonSkipWs rest).isEmpty then some v else none
  | _ => none

/-- Function `json.loads` on a string. -/
def json_loads (s : String) : Option JsonValue :=
  json_loads_list s.toList

/-- Split the input at the first occurrence of `pat`, returning the text
before it and the text after it. -/
def splitOnList (pat : List Char) : List Char → Option (List Char × List Char)
  | [] => if pat.isEmpty then some ([], []) else none
  | c :: rest =>
      if pat.isPrefixOf (c :: rest) then some ([], (c :: rest).drop pat.length)
      else (splitOnList pat rest).map fun p => (c :: p.1, p.2)

/-- Modelled from the spec: `JSON_CODEBLOCK_PATTERN` (missing from
`src/constants.py`) — extract the content of a fenced code block with an
optional `json` tag, if one is present. -/
def extractCodeBlock (cs : List Char) : Option (List Char) :=
  (splitOnList [BTICK, BTICK, BTICK] cs).bind fun p =>
    let afterTag :=
      if ['j', 's', 'o', 'n'].isPrefixOf p.2 then p.2.drop 4 else p.2
    (splitOnList [BTICK, BTICK, BTICK] (afterTag.dropWhile pyIsSpace)).map
      fun q => q.1

/-- The `text.find('{') .. text.rfind('}')+1` substring step of
`clean_and_parse_json` (source): keep the text between the first opening
brace and the last closing brace when both exist in that order. -/
def braceSubstring (cs : List Char) : List Char :=
  match cs.findIdx? (fun c => c = LBRACE), cs.reverse.findIdx? (fun c => c = RBRACE) with
  | some i, some jr =>
      let jEnd := cs.length - jr
      if i < jEnd then (cs.take jEnd).drop i else cs
  | _, _ => cs

/-- Modelled from the spec: `JSON_UNQUOTED_PROPERTY_PATTERN` (missing
from `src/constants.py`) with replacement `\1"\2":` — after `{` or `,`
(and whitespace), wrap a bare identifier that is followed by a colon in
double quotes. -/
def quoteBarePropsF : Nat → List Char → List Char
  | 0, cs => cs
  | Nat.succ fuel, cs =>
      match cs with
      | [] => []
      | c :: rest =>
          if c = LBRACE || c = ',' then
            let ws := rest.takeWhile pyIsSpace
            let rest1 := rest.drop ws.length
            let ident := rest1.takeWhile pyIsWordChar
            let rest2 := rest1.drop ident.length
            match ident, rest2.dropWhile pyIsSpace with
            | i0 :: irest, ':' :: rest4 =>
                if i0.isAlpha || i0 = '_' then
                  c :: (ws ++ DQUOTE :: (i0 :: irest) ++ DQUOTE :: ':' ::
                    quoteBarePropsF fuel rest4)
                else c :: quoteBarePropsF fuel rest
            | _, _ => c :: quoteBarePropsF fuel rest
          else c :: quoteBarePropsF fuel rest

/-- Wrapper supplying enough fuel. -/
def quoteBareProps (cs : List Char) : List Char :=
  quoteBarePropsF (cs.length + 1) cs

/-- Modelled from the spec: `JSON_TRAILING_COMMA_PATTERN` (missing from
`src/constants.py`) with replacement `\1` — drop a comma (and the
whitespace after it) standing directly before `}` or `]`. -/
def stripTrailingCommasF : Nat → List Char → List Char
  | 0, cs => cs
  | Nat.succ fuel, cs =>
      match cs with
      | [] => []
      | c :: rest =>
          if c = ',' then
            match rest.dropWhile pyIsSpace with
            | b :: rest2 =>
                if b = RBRACE || b = ']' then b :: stripTrailingCommasF fuel rest2
                else c :: stripTrailingCommasF fuel rest
            | [] => c :: stripTrailingCommasF fuel rest
          else c :: stripTrailingCommasF fuel rest

/-- Wrapper supplying enough fuel. -/
def stripTrailingCommas (cs : List Char) : List Char :=
  stripTrailingCommasF (cs.length + 1) cs

/-- Modelled from the spec: `JSON_MISSING_COMMA_PATTERN` (missing from
`src/constants.py`) with replacement `\1,\n\2` — between a value end
(closing quote or digit) and the next element start (quote or opening
brace) separated by whitespace containing a newline, insert a comma. -/
def insertMissingCommasF : Nat → List Char → List Char
  | 0, cs => cs
  | Nat.succ fuel, cs =>
      match cs with
      | [] => []
      | c :: rest =>
          if c = DQUOTE || c.isDigit then
            let ws := rest.takeWhile pyIsSpace
            if ws.contains '\n' then
              match rest.drop ws.length with
              | d :: rest2 =>
                  if d = DQUOTE || d = LBRACE then
                    c :: ',' :: '\n' :: d :: insertMissingCommasF fuel rest2
                  else c :: insertMissingCommasF fuel rest
              | [] => c :: insertMissingCommasF fuel rest
            else c :: insertMissingCommasF fuel rest
          else c :: insertMissingCommasF fuel rest

/-- Wrapper supplying enough fuel. -/
def insertMissingCommas (cs : List Char) : List Char :=
  insertMissingCommasF (cs.length + 1) cs

/-- The source's `fixed_text.replace` of single quotes by double
quotes. -/
def replaceSingleQuotes (cs : List Char) : List Char :=
  cs.map fun c => if c = SQUOTE then DQUOTE else c

/-- Modelled from the spec: `JSON_UNQUOTED_VALUE_PATTERN` (missing from
`src/constants.py`) with replacement `: "\1"\2` — wrap a bare word
standing between a colon and a closing delimiter in double quotes. -/
def quoteBareValuesF : Nat → List Char → List Char
  | 0, cs => cs
  | Nat.succ fuel, cs =>
      match cs with
      | [] => []
      | c :: rest =>
          if c = ':' then
            let rest1 := rest.dropWhile pyIsSpace
            let ident := rest1.takeWhile pyIsWordChar
            let rest2 := rest1.drop ident.length
            match ident, rest2.dropWhile pyIsSpace with
            | i0 :: irest, b :: rest4 =>
                if (i0.isAlpha || i0 = '_') && (b = ',' || b = RBRACE || b = ']') then
                  ':' :: ' ' :: DQUOTE :: (i0 :: irest) ++ DQUOTE :: b ::
                    quoteBareValuesF fuel rest4
                else c :: quoteBareValuesF fuel rest
            | _, _ => c :: quoteBareValuesF fuel rest
          else c :: quoteBareValuesF fuel rest

/-- Wrapper supplying enough fuel. -/
def quoteBareValues (cs : List Char) : List Char :=
  quoteBareValuesF (cs.length + 1) cs

/-- Function `clean_and_parse_json` (source, lines 632-679): extract the fenced
code block or the brace-to-brace substring, try a direct parse, then the
first repair sequence (quote bare property names, strip trailing commas,
insert missing commas) and reparse, then the aggressive repair (single
quotes to double quotes, quote bare values) and reparse; `None` when
everything fails. -/
def clean_and_parse_json (text : String) : Option JsonValue :=
  let cs0 := text.toList
  let cs :=
    match extractCodeBlock cs0 with
    | some inner => inner
    | none => braceSubstring cs0
  match json_loads_list cs with
  | some v => some v
  | none =>
      let f1 := quoteBareProps cs
      let f2 := stripTrailingCommas f1
      let f3 := insertMissingCommas f2
      match json_loads_list f3 with
      | some v => some v
      | none =>
          let f4 := replaceSingleQuotes f3
          let f5 := quoteBareValues f4
          match json_loads_list f5 with
          | some v => some v
          | none => none

/-! ## Theorems -/

/-- Combining the two removal passes of the validator into one filter. -/
theorem removeChar_removeChar (l : List Char) :
    pyRemoveChar '-' (pyRemoveChar ' ' l) =
      l.filter (fun c => !(c = ' ' || c = '-')) := by
  induction l with
  | nil => rfl
  | cons c rest ih =>
      by_cases hsp : c = ' ' <;> by_cases hd : c = '-' <;>
        simp [pyRemoveChar, List.filter, hsp, hd] at ih ⊢ <;>
        simpa [pyRemoveChar] using ih

/-- C7 counterexample: the source validator removes only space characters,
not all whitespace.  On a tab-prefixed identifier the code rejects while
the claim's contract (strip whitespace and dashes, then test) accepts. -/
theorem C7_counterexample :
    is_valid_barcode_format "\t12345678" = false ∧
      claimC7_validate "\t12345678" = true := by
  constructor <;> rfl

/-- C7 (amended): `_is_valid_barcode_format s` is true iff `s`, after
removing space characters and dashes (not all whitespace), consists only
of digits and has length 8, 12, 13 or 14. -/
theorem C7_amended (s : String) :
    is_valid_barcode_format s = claimC7_amended_validate s := by
  unfold is_valid_barcode_format claimC7_amended_validate
  rw [removeChar_removeChar]
  cases hb : s.toList.filter (fun c => !(c = ' ' || c = '-')) with
  | nil => simp [pyIsDigitStr, VALID_BARCODE_LENGTHS]
  | cons c rest =>
      simp only [pyIsDigitStr, List.isEmpty_cons, Bool.not_false, Bool.true_and]
      by_cases hall : (c :: rest).all pyIsDigit <;>
        by_cases hlen : VALID_BARCODE_LENGTHS.contains (c :: rest).length <;>
        simp [hall, hlen]

/-- C10: the batch processor's unknown-product predicate and the cleaning
script's standalone copy agree on every product record, so cleaning an
existing output file removes exactly the records the orchestrator would
route to the Unresolved Ledger. -/
theorem C10_predicates_agree (p : ProductRecord) :
    BarcodeProcessor.is_unknown_product p = FilterUnknownProducts.is_unknown_product p :=
  rfl

/-- Unfolding `countBarcode` over a cons cell. -/
theorem countBarcode_cons (b : String) (q : ProductRecord) (l : List ProductRecord) :
    countBarcode b (q :: l) = (if q.barcode = b then 1 else 0) + countBarcode b l := by
  by_cases h : q.barcode = b <;> simp [countBarcode, List.filter_cons, h, Nat.add_comm]

/-- Upserting does not change the count of any other barcode. -/
theorem countBarcode_upsert_ne (p : ProductRecord) (b : String)
    (hb : b ≠ p.barcode) (l : List ProductRecord) :
    countBarcode b (upsertProduct p l) = countBarcode b l := by
  have hpb : p.barcode ≠ b := Ne.symm hb
  induction l with
  | nil => simp [upsertProduct, countBarcode_cons, hpb, countBarcode]
  | cons q rest ih =>
      by_cases hq : q.barcode = p.barcode
      · have hqb : q.barcode ≠ b := by rw [hq]; exact hpb
        rw [upsertProduct, if_pos hq, countBarcode_cons, countBarcode_cons,
          if_neg hpb, if_neg hqb]
      · rw [upsertProduct, if_neg hq, countBarcode_cons, countBarcode_cons, ih]

/-- Upserting leaves exactly one record with the upserted barcode when at
most one was present before. -/
theorem countBarcode_upsert_self (p : ProductRecord) (l : List ProductRecord)
    (h : countBarcode p.barcode l ≤ 1) :
    countBarcode p.barcode (upsertProduct p l) = 1 := by
  induction l with
  | nil => simp [upsertProduct, countBarcode_cons, countBarcode]
  | cons q rest ih =>
      by_cases hq : q.barcode = p.barcode
      · rw [upsertProduct, if_pos hq, countBarcode_cons, if_pos rfl]
        rw [countBarcode_cons, if_pos hq] at h
        omega
      · rw [upsertProduct, if_neg hq, countBarcode_cons, if_neg hq]
        rw [countBarcode_cons, if_neg hq] at h
        have := ih (by omega)
        omega

/-- C5: if the primary collection holds at most one record per barcode,
then after `_save_product_data` of any record it still holds at most one
record per barcode (in particular at most one with the saved record's
barcode): an existing record with the same barcode is replaced in place,
otherwise the record is appended, and unknown records leave the
collection untouched. -/
theorem C5_upsert_unique (p : ProductRecord) (store : ResultStore)
    (h : ∀ b, countBarcode b store.allProducts ≤ 1) (b : String) :
    countBarcode b (save_product_data p store).allProducts ≤ 1 := by
  unfold save_product_data
  by_cases hu : BarcodeProcessor.is_unknown_product p
  · simpa [hu] using h b
  · simp only [hu, Bool.false_eq_true, if_false]
    by_cases hb : b = p.barcode
    · rw [hb, countBarcode_upsert_self p store.allProducts (h p.barcode)]
    · rw [countBarcode_upsert_ne p b hb store.allProducts]
      exact h b

/-- C5 witness: re-saving a record whose barcode already has an entry in
the primary collection leaves exactly one record with that barcode. -/
theorem C5_upsert_unique_witness :
    countBarcode "8901030875071"
      (save_product_data sampleKnownRecord
        (ResultStore.mk [sampleStaleRecord] [])).allProducts ≤ 1 :=
  C5_upsert_unique sampleKnownRecord (ResultStore.mk [sampleStaleRecord] [])
    (fun _ => List.length_filter_le _ _) "8901030875071"

/-- The Unresolved Ledger keeps the product's barcode after
`_add_to_not_found_barcodes`. -/
theorem mem_add_to_not_found (p : ProductRecord) (l : List NotFoundEntry) :
    p.barcode ∈ (add_to_not_found_barcodes p l).map (fun e => e.barcode) := by
  induction l with
  | nil => simp [add_to_not_found_barcodes]
  | cons e rest ih =>
      by_cases he : e.barcode = p.barcode
      · simp [add_to_not_found_barcodes, he]
      · simp only [add_to_not_found_barcodes, if_neg he, List.map, List.mem_cons]
        exact Or.inr ih

/-- C6: a record matching the unknown-product predicate is never added to
the primary collection by `_save_product_data`, and its barcode is always
recorded in the Unresolved Ledger (`not_found_barcodes.json`). -/
theorem C6_unknown_routing (p : ProductRecord) (store : ResultStore)
    (h : BarcodeProcessor.is_unknown_product p = true) :
    (save_product_data p store).allProducts = store.allProducts ∧
      p.barcode ∈ ((save_product_data p store).notFound.map (fun e => e.barcode)) := by
  unfold save_product_data
  rw [if_pos h]
  exact ⟨rfl, mem_add_to_not_found p store.notFound⟩

/-- C6 witness: saving a concrete record with Brand == "Unknown" into an
empty store leaves the primary collection empty and puts the barcode into
the Unresolved Ledger. -/
theorem C6_unknown_routing_witness :
    (save_product_data sampleUnknownRecord (ResultStore.mk [] [])).allProducts =
        (ResultStore.mk [] []).allProducts ∧
      sampleUnknownRecord.barcode ∈
        ((save_product_data sampleUnknownRecord (ResultStore.mk [] [])).notFound.map
          (fun e => e.barcode)) :=
  C6_unknown_routing sampleUnknownRecord (ResultStore.mk [] []) (by decide)

/-- C9 counterexample: re-upserting an identifier that already has a
ledger entry does not behave as claimed on either ledger.  On the
Unresolved Ledger the attempt counter is incremented but the stored
reasons are REPLACED by the new ones (the stored reason disappears, so no
set union happens); on the Invalid Ledger the persisted entry is left
completely unchanged (the function returns before writing, and entries
carry no attempt counter at all). -/
theorem C9_counterexample :
    save_not_found_barcode "12345678" ["Not found in Google Search"] "t1"
        sampleNotFoundLedger =
      [⟨"12345678", 2, "t0", "t1", ["Not found in Google Search"]⟩] ∧
    add_invalid_barcode "12345678" ["Invalid format"] "t1"
        [⟨"12345678", "t0", ["Unknown reason"]⟩] =
      [⟨"12345678", "t0", ["Unknown reason"]⟩] := by
  constructor <;> rfl

/-- C9 (amended): an Unresolved Ledger upsert on an identifier that
already has an entry increments that entry's attempt counter, refreshes
its last-attempt time, and replaces its reasons with the newly supplied
(non-empty) reasons; an Invalid Ledger upsert on an identifier that
already has an entry leaves the persisted ledger entirely unchanged. -/
theorem C9_amended (b now : String) (rs : List String)
    (file : List NotFoundEntry) (e : NotFoundEntry)
    (he : findEntryNF b file = some e) (hrs : rs ≠ []) :
    findEntryNF b (save_not_found_barcode b rs now file) =
      some { e with attempts := e.attempts + 1, lastAttempt := now, reasons := rs } ∧
    ∀ ifile : List InvalidEntry, ifile.any (fun i => i.barcode = b) →
      add_invalid_barcode b rs now ifile = ifile := by
  have hne : rs.isEmpty = false := by
    cases rs with
    | nil => exact absurd rfl hrs
    | cons r rest => rfl
  refine ⟨?_, ?_⟩
  · induction file with
    | nil => simp [findEntryNF] at he
    | cons f rest ih =>
        by_cases hf : f.barcode = b
        · rw [findEntryNF, if_pos hf] at he
          injection he with he
          subst he
          simp [save_not_found_barcode, if_pos hf, findEntryNF, hf, hne]
        · rw [findEntryNF, if_neg hf] at he
          rw [save_not_found_barcode, if_neg hf, findEntryNF, if_neg hf]
          exact ih he
  · intro ifile hif
    unfold add_invalid_barcode
    rw [if_pos hif]

/-- C9 witness: applying the amended ledger-upsert theorem at a concrete
ledger holding one prior attempt for the identifier. -/
theorem C9_amended_witness :
    findEntryNF "12345678"
        (save_not_found_barcode "12345678" ["Not found in Google Search"] "t1"
          sampleNotFoundLedger) =
      some ⟨"12345678", 2, "t0", "t1", ["Not found in Google Search"]⟩ :=
  (C9_amended "12345678" "t1" ["Not found in Google Search"] sampleNotFoundLedger
    ⟨"12345678", 1, "t0", "t0", ["Not found in OpenFoodFacts"]⟩ rfl (by decide)).1

/-- The disable check yields the circuit-breaker invariant as long as a
returned response implies an already-invariant state. -/
theorem serviceInv_disableCheck (r : CallResult)
    (h : ∀ t, r.response = some t → serviceInv r.state) :
    serviceInv (disableCheck r) := by
  unfold disableCheck
  by_cases hcond : (r.response.isNone && decide (3 ≤ r.state.failures)) = true
  · rw [if_pos hcond]; intro _; rfl
  · rw [if_neg hcond]
    cases hresp : r.response with
    | some t => exact h t hresp
    | none =>
        intro h3
        exact absurd (by simp [hresp, h3]) hcond

/-- A Gemini call that returned text has just reset the failure count. -/
theorem gemini_ok_failures (s : ServiceState) (o : GeminiOutcome) (t : String)
    (h : (call_gemini_api s o).response = some t) :
    (call_gemini_api s o).state.failures = 0 := by
  cases hw : s.working <;> cases o <;> simp [call_gemini_api, hw] at h ⊢

/-- An OpenAI call that returned text has just reset the failure count. -/
theorem openai_ok_failures (s : ServiceState) (o : OpenAIOutcome) (t : String)
    (h : (call_openai_api s o).response = some t) :
    (call_openai_api s o).state.failures = 0 := by
  cases hw : s.working <;> cases o <;> simp [call_openai_api, hw] at h ⊢

/-- A DeepSeek call that returned text has just reset the failure count. -/
theorem deepseek_ok_failures (s : ServiceState) (o : DeepSeekOutcome) (t : String)
    (h : (call_deepseek_api s o).response = some t) :
    (call_deepseek_api s o).state.failures = 0 := by
  cases hw : s.working <;> cases o <;> simp [call_deepseek_api, hw] at h ⊢

/-- The Gemini block preserves the circuit-breaker invariant. -/
theorem geminiBlock_inv (s : ServiceState) (o : GeminiOutcome)
    (h : serviceInv s) : serviceInv (geminiBlock s o).2.2 := by
  unfold geminiBlock
  by_cases hw : s.working
  · rw [if_pos hw]
    exact serviceInv_disableCheck _ (fun t ht h3 => by
      rw [gemini_ok_failures s o t ht] at h3; omega)
  · rw [if_neg hw]; exact h

/-- The OpenAI block preserves the circuit-breaker invariant. -/
theorem openaiBlock_inv (resp : Option String) (s : ServiceState)
    (o : OpenAIOutcome) (h : serviceInv s) :
    serviceInv (openaiBlock resp s o).2.2 := by
  unfold openaiBlock
  by_cases hw : (resp.isNone && s.working) = true
  · rw [if_pos hw]
    exact serviceInv_disableCheck _ (fun t ht h3 => by
      rw [openai_ok_failures s o t ht] at h3; omega)
  · rw [if_neg hw]; exact h

/-- The DeepSeek block preserves the circuit-breaker invariant. -/
theorem deepseekBlock_inv (resp : Option String) (s : ServiceState)
    (o : DeepSeekOutcome) (h : serviceInv s) :
    serviceInv (deepseekBlock resp s o).2.2 := by
  unfold deepseekBlock
  by_cases hw : (resp.isNone && s.working) = true
  · rw [if_pos hw]
    exact serviceInv_disableCheck _ (fun t ht h3 => by
      rw [deepseek_ok_failures s o t ht] at h3; omega)
  · rw [if_neg hw]; exact h

/-- A non-working adapter passes through its block untouched, with no
request issued and no response produced. -/
theorem geminiBlock_notWorking (s : ServiceState) (o : GeminiOutcome)
    (h : s.working = false) : geminiBlock s o = (none, false, s) := by
  simp [geminiBlock, h]

/-- A non-working OpenAI adapter passes through its block untouched. -/
theorem openaiBlock_notWorking (resp : Option String) (s : ServiceState)
    (o : OpenAIOutcome) (h : s.working = false) :
    openaiBlock resp s o = (resp, false, s) := by
  simp [openaiBlock, h]

/-- A non-working DeepSeek adapter passes through its block untouched. -/
theorem deepseekBlock_notWorking (resp : Option String) (s : ServiceState)
    (o : DeepSeekOutcome) (h : s.working = false) :
    deepseekBlock resp s o = (resp, false, s) := by
  simp [deepseekBlock, h]

/-- One `_enhance_with_ai` pass preserves the circuit-breaker invariant. -/
theorem healthInv_enhance (st : AIServiceStatus) (o : PassOutcomes)
    (h : healthInv st) : healthInv (enhance_with_ai st o).status := by
  unfold enhance_with_ai
  by_cases hall :
      (!st.gemini.working && !st.openai.working && !st.deepseek.working) = true
  · rw [if_pos hall]; exact h
  · rw [if_neg hall]
    exact ⟨geminiBlock_inv _ _ h.1, openaiBlock_inv _ _ _ h.2.1,
      deepseekBlock_inv _ _ _ h.2.2⟩

/-- A disabled Gemini adapter stays untouched through a pass and issues
no request. -/
theorem enhance_gemini_notWorking (st : AIServiceStatus) (o : PassOutcomes)
    (h : st.gemini.working = false) :
    (enhance_with_ai st o).status.gemini = st.gemini ∧
      (enhance_with_ai st o).geminiRequested = false := by
  unfold enhance_with_ai
  by_cases hall :
      (!st.gemini.working && !st.openai.working && !st.deepseek.working) = true
  · rw [if_pos hall]; exact ⟨rfl, rfl⟩
  · rw [if_neg hall]
    simp only [geminiBlock_notWorking st.gemini o.gemini h]
    exact ⟨trivial, trivial⟩

/-- A disabled OpenAI adapter stays untouched through a pass and issues
no request. -/
theorem enhance_openai_notWorking (st : AIServiceStatus) (o : PassOutcomes)
    (h : st.openai.working = false) :
    (enhance_with_ai st o).status.openai = st.openai ∧
      (enhance_with_ai st o).openaiRequested = false := by
  unfold enhance_with_ai
  by_cases hall :
      (!st.gemini.working && !st.openai.working && !st.deepseek.working) = true
  · rw [if_pos hall]; exact ⟨rfl, rfl⟩
  · rw [if_neg hall]
    simp only [openaiBlock_notWorking _ st.openai o.openai h]
    exact ⟨trivial, trivial⟩

/-- A disabled DeepSeek adapter stays untouched through a pass and issues
no request. -/
theorem enhance_deepseek_notWorking (st : AIServiceStatus) (o : PassOutcomes)
    (h : st.deepseek.working = false) :
    (enhance_with_ai st o).status.deepseek = st.deepseek ∧
      (enhance_with_ai st o).deepseekRequested = false := by
  unfold enhance_with_ai
  by_cases hall :
      (!st.gemini.working && !st.openai.working && !st.deepseek.working) = true
  · rw [if_pos hall]; exact ⟨rfl, rfl⟩
  · rw [if_neg hall]
    simp only [deepseekBlock_notWorking _ st.deepseek o.deepseek h]
    exact ⟨trivial, trivial⟩

/-- A sequence of passes preserves the invariant and the disabled flags. -/
theorem runPasses_props (ps : List PipelinePass) (st : AIServiceStatus)
    (h : healthInv st) :
    healthInv (runPasses st ps) ∧
      (st.gemini.working = false → (runPasses st ps).gemini = st.gemini) ∧
      (st.openai.working = false → (runPasses st ps).openai = st.openai) ∧
      (st.deepseek.working = false → (runPasses st ps).deepseek = st.deepseek) := by
  induction ps generalizing st with
  | nil => exact ⟨h, fun _ => rfl, fun _ => rfl, fun _ => rfl⟩
  | cons p rest ih =>
      cases p with
      | noEnhance =>
          have := ih st h
          exact ⟨this.1, this.2.1, this.2.2.1, this.2.2.2⟩
      | enhance o =>
          have hstep := healthInv_enhance st o h
          have := ih _ hstep
          refine ⟨this.1, ?_, ?_, ?_⟩
          · intro hg
            have hgs := (enhance_gemini_notWorking st o hg).1
            rw [runPasses, List.foldl_cons]
            show (runPasses (enhance_with_ai st o).status rest).gemini = st.gemini
            rw [this.2.1 (by rw [hgs]; exact hg), hgs]
          · intro ho
            have hos := (enhance_openai_notWorking st o ho).1
            rw [runPasses, List.foldl_cons]
            show (runPasses (enhance_with_ai st o).status rest).openai = st.openai
            rw [this.2.2.1 (by rw [hos]; exact ho), hos]
          · intro hd
            have hds := (enhance_deepseek_notWorking st o hd).1
            rw [runPasses, List.foldl_cons]
            show (runPasses (enhance_with_ai st o).status rest).deepseek = st.deepseek
            rw [this.2.2.2 (by rw [hds]; exact hd), hds]

/-- C1 counterexample: "a failed call increments it" fails twice over.
An OpenAI call that fails with an authentication error (HTTP 401) is a
failed call (no response, request issued) that leaves the
consecutive-failure counter at 0 — it disables the adapter directly
instead; and an OpenAI 200-response of unexpected shape from a state
with two prior failures is a failed call that nets the counter to 1
(reset before the body read, then the exception handler's increment),
not to 3. -/
theorem C1_counterexample :
    ((call_openai_api ⟨true, 0⟩ OpenAIOutcome.authFailure).response = none ∧
      (call_openai_api ⟨true, 0⟩ OpenAIOutcome.authFailure).requested = true ∧
      (call_openai_api ⟨true, 0⟩ OpenAIOutcome.authFailure).state.failures = 0) ∧
    ((call_openai_api ⟨true, 2⟩ OpenAIOutcome.badFormat).response = none ∧
      (call_openai_api ⟨true, 2⟩ OpenAIOutcome.badFormat).requested = true ∧
      (call_openai_api ⟨true, 2⟩ OpenAIOutcome.badFormat).state.failures = 1) := by
  exact ⟨⟨rfl, rfl, rfl⟩, ⟨rfl, rfl, rfl⟩⟩

/-- C1 (amended): for every generative adapter, a successful call resets
its consecutive-failure counter to 0; a failed call increments it, except
that an OpenAI authentication failure and a DeepSeek authentication or
balance failure leave the counter unchanged (disabling directly), and a
200-response of unexpected shape on any of the three adapters resets the
counter before incrementing (leaving it at 1 regardless of the prior
count).  Once the counter is 3 or more the working flag is false, it
remains false across every subsequent pipeline pass, and a non-working
adapter's call function returns no response without issuing a request. -/
theorem C1_amended (st : AIServiceStatus) (ps : List PipelinePass)
    (h : healthInv st) :
    healthInv (runPasses st ps) ∧
    ((st.gemini.working = false → (runPasses st ps).gemini.working = false) ∧
     (st.openai.working = false → (runPasses st ps).openai.working = false) ∧
     (st.deepseek.working = false → (runPasses st ps).deepseek.working = false)) ∧
    (∀ o, (st.gemini.working = false → (enhance_with_ai st o).geminiRequested = false) ∧
          (st.openai.working = false → (enhance_with_ai st o).openaiRequested = false) ∧
          (st.deepseek.working = false → (enhance_with_ai st o).deepseekRequested = false)) ∧
    (∀ s : ServiceState, s.working = false →
      (∀ g, call_gemini_api s g = ⟨none, false, s⟩) ∧
      (∀ q, call_openai_api s q = ⟨none, false, s⟩) ∧
      (∀ d, call_deepseek_api s d = ⟨none, false, s⟩)) ∧
    (∀ s : ServiceState, s.working = true →
      (∀ g, (call_gemini_api s g).state =
        (match g with
         | GeminiOutcome.ok _ => ⟨true, 0⟩
         | GeminiOutcome.badFormat => ⟨true, 1⟩
         | GeminiOutcome.httpError _ => ⟨true, s.failures + 1⟩
         | GeminiOutcome.requestFailure => ⟨true, s.failures + 1⟩)) ∧
      (∀ q, (call_openai_api s q).state =
        (match q with
         | OpenAIOutcome.ok _ => ⟨true, 0⟩
         | OpenAIOutcome.badFormat => ⟨true, 1⟩
         | OpenAIOutcome.rateLimitQuota => ⟨false, s.failures + 1⟩
         | OpenAIOutcome.rateLimitOther => ⟨true, s.failures + 1⟩
         | OpenAIOutcome.authFailure => ⟨false, s.failures⟩
         | OpenAIOutcome.httpError _ => ⟨true, s.failures + 1⟩
         | OpenAIOutcome.requestFailure => ⟨true, s.failures + 1⟩)) ∧
      (∀ d, (call_deepseek_api s d).state =
        (match d with
         | DeepSeekOutcome.ok _ => ⟨true, 0⟩
         | DeepSeekOutcome.badFormat => ⟨true, 1⟩
         | DeepSeekOutcome.insufficientBalance => ⟨false, s.failures⟩
         | DeepSeekOutcome.authFailure => ⟨false, s.failures⟩
         | DeepSeekOutcome.rateLimit => ⟨true, s.failures + 1⟩
         | DeepSeekOutcome.httpError _ => ⟨true, s.failures + 1⟩
         | DeepSeekOutcome.requestFailure => ⟨true, s.failures + 1⟩))) := by
  have hrun := runPasses_props ps st h
  refine ⟨hrun.1, ?_, ?_, ?_, ?_⟩
  · exact ⟨fun hg => by rw [hrun.2.1 hg]; exact hg,
      fun ho => by rw [hrun.2.2.1 ho]; exact ho,
      fun hd => by rw [hrun.2.2.2 hd]; exact hd⟩
  · intro o
    exact ⟨fun hg => (enhance_gemini_notWorking st o hg).2,
      fun ho => (enhance_openai_notWorking st o ho).2,
      fun hd => (enhance_deepseek_notWorking st o hd).2⟩
  · intro s hs
    refine ⟨fun g => ?_, fun q => ?_, fun d => ?_⟩ <;>
      simp [call_gemini_api, call_openai_api, call_deepseek_api, hs]
  · intro s hs
    refine ⟨fun g => ?_, fun q => ?_, fun d => ?_⟩
    · cases g <;> simp [call_gemini_api, hs]
    · cases q <;> simp [call_openai_api, hs]
    · cases d <;> simp [call_deepseek_api, hs]

/-- C1 witness: running the amended-claim theorem from the initial health
state over a concrete two-pass lifetime (one pass with all three
adapters failing, one pass without enhancement). -/
theorem C1_amended_witness :
    healthInv (runPasses AI_SERVICE_DEFAULT_STATUS
      [PipelinePass.enhance ⟨GeminiOutcome.httpError 500, OpenAIOutcome.authFailure,
        DeepSeekOutcome.rateLimit⟩, PipelinePass.noEnhance]) :=
  (C1_amended AI_SERVICE_DEFAULT_STATUS
    [PipelinePass.enhance ⟨GeminiOutcome.httpError 500, OpenAIOutcome.authFailure,
      DeepSeekOutcome.rateLimit⟩, PipelinePass.noEnhance] (by decide)).1

/-- C4 counterexample: Gemini has no fast-disable branch — an
authentication-failure response (HTTP 401) merely increments its failure
counter and leaves `working` true, refuting "for every generative
adapter, an authentication-failure response immediately sets the working
flag to false". -/
theorem C4_counterexample :
    (call_gemini_api ⟨true, 0⟩ (GeminiOutcome.httpError 401)).state.working = true ∧
      (call_gemini_api ⟨true, 0⟩ (GeminiOutcome.httpError 401)).state.failures = 1 ∧
      (call_gemini_api ⟨true, 0⟩ (GeminiOutcome.httpError 401)).requested = true := by
  exact ⟨rfl, rfl, rfl⟩

/-- C4 (amended): for the OpenAI and DeepSeek adapters, an
authentication-failure response or a quota/balance-exhausted response
immediately sets the working flag to false regardless of the current
failure count, while a plain rate-limit response only increments the
failure count and does not by itself clear the working flag; the Gemini
adapter has no such fast-disable branch — any of its error responses,
authentication failures included, only increments the failure count. -/
theorem C4_amended (s : ServiceState) (h : s.working = true) :
    (call_openai_api s OpenAIOutcome.authFailure).state.working = false ∧
    (call_openai_api s OpenAIOutcome.rateLimitQuota).state.working = false ∧
    (call_deepseek_api s DeepSeekOutcome.authFailure).state.working = false ∧
    (call_deepseek_api s DeepSeekOutcome.insufficientBalance).state.working = false ∧
    (call_openai_api s OpenAIOutcome.rateLimitOther).state = ⟨true, s.failures + 1⟩ ∧
    (call_deepseek_api s DeepSeekOutcome.rateLimit).state = ⟨true, s.failures + 1⟩ ∧
    (call_gemini_api s (GeminiOutcome.httpError 401)).state = ⟨true, s.failures + 1⟩ ∧
    (call_gemini_api s (GeminiOutcome.httpError 429)).state = ⟨true, s.failures + 1⟩ := by
  refine ⟨?_, ?_, ?_, ?_, ?_, ?_, ?_, ?_⟩ <;>
    simp [call_openai_api, call_deepseek_api, call_gemini_api, h]

/-- C4 witness: the amended fast-disable behaviour at a concrete working
state with two prior failures. -/
theorem C4_amended_witness :
    (call_openai_api ⟨true, 2⟩ OpenAIOutcome.authFailure).state.working = false ∧
    (call_openai_api ⟨true, 2⟩ OpenAIOutcome.rateLimitQuota).state.working = false ∧
    (call_deepseek_api ⟨true, 2⟩ DeepSeekOutcome.authFailure).state.working = false ∧
    (call_deepseek_api ⟨true, 2⟩ DeepSeekOutcome.insufficientBalance).state.working = false ∧
    (call_openai_api ⟨true, 2⟩ OpenAIOutcome.rateLimitOther).state = ⟨true, 3⟩ ∧
    (call_deepseek_api ⟨true, 2⟩ DeepSeekOutcome.rateLimit).state = ⟨true, 3⟩ ∧
    (call_gemini_api ⟨true, 2⟩ (GeminiOutcome.httpError 401)).state = ⟨true, 3⟩ ∧
    (call_gemini_api ⟨true, 2⟩ (GeminiOutcome.httpError 429)).state = ⟨true, 3⟩ :=
  C4_amended ⟨true, 2⟩ rfl

/-- C2: the source clients are queried strictly in the order
OpenFoodFacts, Google, DigiTeyes, stopping at the first candidate with a
non-empty name: a later client is queried exactly when every earlier
client returned no candidate or an empty-named one, and the candidate
carried forward is the first named one (or DigiTeyes's answer when none
is named). -/
theorem C2_fixed_order (off goog digi : Option RawProductData) :
    process_single_barcode_sources off goog digi =
      (SourceClient.openfoodfacts ::
        (if hasName off then []
         else SourceClient.google ::
           (if hasName goog then [] else [SourceClient.digiteyes])),
       if hasName off then off else if hasName goog then goog else digi) ∧
    (SourceClient.google ∈ (process_single_barcode_sources off goog digi).1 ↔
      hasName off = false) ∧
    (SourceClient.digiteyes ∈ (process_single_barcode_sources off goog digi).1 ↔
      (hasName off = false ∧ hasName goog = false)) := by
  by_cases h1 : hasName off <;> by_cases h2 : hasName goog <;>
    simp [process_single_barcode_sources, h1, h2]

/-- C3 (code behaviour at the failing input): on an analysis text that is
exactly the quantity text "2 x 500g", the extraction yields quantity 500
and unit "g" — the single-unit `g` pattern is tried before the compound
`N x M<unit>` pattern and matches "500g" first, so the multiplying branch
is never reached and the claimed result (1000, "g") is not produced. -/
theorem C3_code_behavior :
    extract_quantity_unit (fullAnalysisText "2 x 500g" "" "") = (500, "g") ∧
      extract_quantity_unit (fullAnalysisText "2 x 500g" "" "") ≠ (1000, "g") := by
  constructor
  · decide
  · decide

/-- C8: the repair sequence turns the malformed payload
`\x7bname: "Soap", brand: \x27Lux\x27,\x7d` (bare property names, a
single-quoted value, a trailing comma) into a successfully parsed object
equal to the direct parse of `\x7b"name":"Soap","brand":"Lux"\x7d`. -/
theorem C8_repair_parse :
    clean_and_parse_json "\x7bname: \"Soap\", brand: \x27Lux\x27,\x7d" =
        json_loads "\x7b\"name\":\"Soap\",\"brand\":\"Lux\"\x7d" ∧
      json_loads "\x7b\"name\":\"Soap\",\"brand\":\"Lux\"\x7d" =
        some (JsonValue.obj [("name", JsonValue.str "Soap"),
          ("brand", JsonValue.str "Lux")]) := by
  constructor
  · rfl
  · rfl
